import Mathlib

/-!
Verification of the Stage reconciliation core of the kargo progressive-delivery
control plane, against its design document.

The repository ships the reconciler's test suite
(internal/controller/stages/stages_test.go) but not the reconciler body itself,
so the reconciler (syncStage, getLatestFreightFromRepos) is modelled from the
design document (spec.md sections 4.1, 4.2, 4.5, 6), with every point the
document leaves open resolved the way the shipped tests require.  The UI hook
useLocalStorage (ui/src/utils/use-local-storage.ts) is translated directly from
its TypeScript source.

Go pointers become Option, Go (value, error) returns become explicit result
records carrying an Option String error, injected behaviors (the reconciler
struct's function fields) become function-valued fields of a Reconciler
structure, and the Kubernetes client holding PromotionPolicy objects becomes a
plain list of policies.
-/

namespace Kargo

/-- A git commit reference, from the kargo API types used by the tests
(repoURL and id are the fields the tests exercise). -/
structure GitCommit where
  repoURL : String := ""
  id : String := ""
  deriving Repr, DecidableEq

/-- A container image reference (repoURL, tag). -/
structure Image where
  repoURL : String := ""
  tag : String := ""
  deriving Repr, DecidableEq

/-- A Helm chart reference (registryURL, name, version). -/
structure Chart where
  registryURL : String := ""
  name : String := ""
  version : String := ""
  deriving Repr, DecidableEq

/-- An immutable Freight bundle: content-derived id, firstSeen timestamp
(wall-clock time modelled as Nat), artifact lists, and the qualified flag. -/
structure Freight where
  id : String := ""
  firstSeen : Option Nat := none
  commits : List GitCommit := []
  images : List Image := []
  charts : List Chart := []
  qualified : Bool := false
  deriving Repr, DecidableEq

/-- A git repository subscription. -/
structure GitSubscription where
  repoURL : String := ""
  deriving Repr, DecidableEq

/-- An image repository subscription. -/
structure ImageSubscription where
  repoURL : String := ""
  deriving Repr, DecidableEq

/-- A chart repository subscription. -/
structure ChartSubscription where
  registryURL : String := ""
  deriving Repr, DecidableEq

/-- Repository subscriptions, zero or more per artifact kind. -/
structure RepoSubscriptions where
  git : List GitSubscription := []
  images : List ImageSubscription := []
  charts : List ChartSubscription := []
  deriving Repr, DecidableEq

/-- A reference to an upstream Stage. -/
structure StageSubscription where
  name : String := ""
  deriving Repr, DecidableEq

/-- A Stage's subscriptions: either repos or upstreamStages is populated. -/
structure Subscriptions where
  repos : Option RepoSubscriptions := none
  upstreamStages : List StageSubscription := []
  deriving Repr, DecidableEq

/-- Promotion mechanisms; their inner content is irrelevant to the reconciler
logic under test, only presence or absence matters. -/
structure PromotionMechanisms where
  deriving Repr, DecidableEq

/-- A Stage's spec: subscriptions plus optional promotion mechanisms.  A Stage
whose promotionMechanisms is none is a control-flow Stage. -/
structure StageSpec where
  subscriptions : Option Subscriptions := none
  promotionMechanisms : Option PromotionMechanisms := none
  deriving Repr, DecidableEq

/-- A health verdict. -/
structure Health where
  status : String := ""
  deriving Repr, DecidableEq

/-- Pointer to an in-flight Promotion recorded in a Stage's status. -/
structure PromotionInfo where
  name : String := ""
  freight : Freight := {}
  deriving Repr, DecidableEq

/-- A Stage's status: current Freight, the available-Freight stack (newest at
the head), history, last health verdict, and the in-flight Promotion pointer. -/
structure StageStatus where
  currentFreight : Option Freight := none
  availableFreight : List Freight := []
  history : List Freight := []
  health : Option Health := none
  currentPromotion : Option PromotionInfo := none
  deriving Repr, DecidableEq

/-- A Stage resource keyed by (nspace, name); nspace stands for the Kubernetes
namespace, which is a reserved word here. -/
structure Stage where
  name : String := ""
  nspace : String := ""
  spec : Option StageSpec := none
  status : StageStatus := {}
  deriving Repr, DecidableEq

/-- A PromotionPolicy resource: selects a Stage by name within its namespace
and enables or disables auto-promotion for it. -/
structure PromotionPolicy where
  name : String := ""
  nspace : String := ""
  stage : String := ""
  enableAutoPromotion : Bool := false
  deriving Repr, DecidableEq

/-- A Promotion order: transition the named Stage to the given Freight id. -/
structure Promotion where
  name : String := ""
  nspace : String := ""
  stage : String := ""
  freight : String := ""
  deriving Repr, DecidableEq

/-- The reconciler with its injectable behaviors, mirroring the reconciler
struct that the tests populate field by field.  The Kubernetes client that
stores PromotionPolicy objects is modelled as the list of policies it would
return, and the random suffix used in Promotion names as a fixed nonce field. -/
structure Reconciler where
  hasNonTerminalPromotionsFn : String → String → Except String Bool
  checkHealthFn : Freight → Health := fun _ => {}
  getLatestFreightFromReposFn : String → RepoSubscriptions → Except String (Option Freight) :=
    fun _ _ => .ok none
  getAvailableFreightFromUpstreamStagesFn :
      String → List StageSubscription → Except String (List Freight) :=
    fun _ _ => .ok []
  getLatestCommitsFn : String → List GitSubscription → Except String (List GitCommit) :=
    fun _ _ => .ok []
  getLatestImagesFn : String → List ImageSubscription → Except String (List Image) :=
    fun _ _ => .ok []
  getLatestChartsFn : String → List ChartSubscription → Except String (List Chart) :=
    fun _ _ => .ok []
  policies : List PromotionPolicy := []
  nonce : String := ""
  now : Nat := 0

/-- The outcome of one syncStage pass: the next status, the Promotions the pass
created, and the surfaced error if any (Go returns status and error together,
and creates Promotions through the API client as a side effect). -/
structure SyncResult where
  status : StageStatus
  created : List Promotion := []
  err : Option String := none
  deriving Repr, DecidableEq

/-- The ids of the Freight entries of a stack. -/
def freightIds (fs : List Freight) : List String :=
  fs.map Freight.id

/-- Modelled from the spec: the PromotionPolicy lookup the missing reconciler
performs through its Kubernetes client; a policy matches the Stage when it
lives in the Stage's namespace and names the Stage. -/
def matchingPolicies (r : Reconciler) (stage : Stage) : List PromotionPolicy :=
  r.policies.filter fun p => p.nspace == stage.nspace && p.stage == stage.name

/-- Modelled from the spec, section 6: a Promotion is named
stageName.shortFreightID.nonce where shortFreightID is the first seven
characters of the Freight id. -/
def promotionName (stageName freightID nonce : String) : String :=
  stageName ++ "." ++ freightID.take 7 ++ "." ++ nonce

/-- Modelled from the spec: the Promotion object the missing reconciler creates
for a Stage and a chosen Freight id. -/
def newPromotion (r : Reconciler) (stage : Stage) (freightID : String) : Promotion :=
  { name := promotionName stage.name freightID r.nonce
    nspace := stage.nspace
    stage := stage.name
    freight := freightID }

/-- Set the qualified flag of a Freight, as the control-flow branch does before
appending to history. -/
def qualify (f : Freight) : Freight :=
  { f with qualified := true }

/-- Modelled from the spec, sections 4.1 step 5 and 9: health evaluation runs
only when currentFreight is present and the Stage has promotionMechanisms
(section 9 resolves the nil-promotionMechanisms case as not applicable, and the
control-flow test injects no health function while currentFreight is
non-nil). -/
def evalHealth (r : Reconciler) (sp : StageSpec) (st : StageStatus) : StageStatus :=
  match sp.promotionMechanisms, st.currentFreight with
  | some _, some cf => { st with health := some (r.checkHealthFn cf) }
  | _, _ => st

/-- Modelled from the spec, section 4.5: the Promotion Gate.  Auto-promotion
fires when this pass pushed a new top-of-stack Freight (newTop), the
subscription shape permits it (subsOk), exactly one PromotionPolicy matches and
enables auto-promotion, and the top-of-stack Freight id differs from the
current Freight id; then exactly one Promotion for the top-of-stack Freight id
is created. -/
def gatePromotions (r : Reconciler) (stage : Stage) (st : StageStatus)
    (newTop : Bool) (subsOk : Bool) : List Promotion :=
  if newTop && subsOk then
    match matchingPolicies r stage with
    | [p] =>
      if p.enableAutoPromotion then
        match st.availableFreight with
        | top :: _ =>
          if st.currentFreight.map Freight.id = some top.id then []
          else [newPromotion r stage top.id]
        | [] => []
      else []
    | _ => []
  else []

/-- Modelled from the spec, sections 4.1 steps 5 to 8 and 4.5: the tail of a
syncStage pass after subscription dispatch.  st is the working status after the
available-Freight merge, newTop records whether the pass pushed new Freight,
subsOk whether the subscription shape permits auto-promotion (repos, or exactly
one upstream Stage).  Resolutions the tests force on the document: the
auto-promotion gate is not suppressed for Stages without promotionMechanisms
(the auto-promotion-enabled test's Stage has no promotionMechanisms yet expects
one Promotion); the control-flow branch qualifies and appends the pass-input
availableFreight (the control-flow test pre-populates availableFreight, has the
collector return nothing, and still expects history to gain those entries,
while the multiple-upstream test expects history untouched for freshly pushed
entries). -/
def finishSync (r : Reconciler) (stage : Stage) (sp : StageSpec)
    (st : StageStatus) (newTop : Bool) (subsOk : Bool) : SyncResult :=
  let stH := evalHealth r sp st
  let created := gatePromotions r stage stH newTop subsOk
  match sp.promotionMechanisms with
  | none =>
    { status :=
        { stH with
          currentFreight := none
          history := stage.status.availableFreight.map qualify ++ stH.history }
      created := created
      err := none }
  | some _ => { status := stH, created := created, err := none }

/-- Modelled from the spec, section 4.1: one syncStage reconcile pass of the
missing reconciler.  Error returns surface the input status unchanged (failure
semantics, section 4.1); non-error early returns surface the working copy with
currentPromotion cleared (step 2, confirmed by the no-non-terminal-promotions
test).  Deduplication of discovered Freight is by id against the
availableFreight stack as of the start of the pass (the multiple-upstream test
expects two identically-empty Freight entries to both be pushed).  The upstream
path does not return early on an empty collection (the control-flow test needs
the pass to proceed when the collector returns nothing). -/
def syncStage (r : Reconciler) (stage : Stage) : SyncResult :=
  match r.hasNonTerminalPromotionsFn stage.nspace stage.name with
  | .error e => { status := stage.status, err := some e }
  | .ok true => { status := stage.status }
  | .ok false =>
    let statusW := { stage.status with currentPromotion := none }
    match stage.spec with
    | none => { status := statusW }
    | some sp =>
      match sp.subscriptions with
      | none => { status := statusW }
      | some subs =>
        match subs.repos with
        | some repoSubs =>
          match r.getLatestFreightFromReposFn stage.nspace repoSubs with
          | .error e => { status := stage.status, err := some e }
          | .ok none => { status := statusW }
          | .ok (some freight) =>
            if freight.id ∈ freightIds stage.status.availableFreight then
              finishSync r stage sp statusW false true
            else
              finishSync r stage sp
                { statusW with availableFreight := freight :: statusW.availableFreight }
                true true
        | none =>
          match subs.upstreamStages with
          | [] => { status := statusW }
          | u :: us =>
            match r.getAvailableFreightFromUpstreamStagesFn stage.nspace (u :: us) with
            | .error e => { status := stage.status, err := some e }
            | .ok fs =>
              let fresh :=
                fs.filter fun f => !(freightIds stage.status.availableFreight).contains f.id
              finishSync r stage sp
                { statusW with availableFreight := fresh ++ statusW.availableFreight }
                (!fresh.isEmpty) ((u :: us).length == 1)

/-- Boolean ascending comparison on strings, for the canonical sorting of the
fingerprint input. -/
def strLe (a b : String) : Bool :=
  match compare a b with
  | .gt => false
  | _ => true

/-- Insert into a list sorted by le. -/
def insertLe (le : α → α → Bool) (a : α) : List α → List α
  | [] => [a]
  | b :: bs => if le a b then a :: b :: bs else b :: insertLe le a bs

/-- Insertion sort by le. -/
def sortLe (le : α → α → Bool) : List α → List α
  | [] => []
  | a :: as => insertLe le a (sortLe le as)

/-- Canonical serialization of a commit for the fingerprint. -/
def serCommit (c : GitCommit) : String :=
  c.repoURL ++ "," ++ c.id

/-- Canonical serialization of an image for the fingerprint. -/
def serImage (i : Image) : String :=
  i.repoURL ++ "," ++ i.tag

/-- Canonical serialization of a chart for the fingerprint. -/
def serChart (c : Chart) : String :=
  c.registryURL ++ "," ++ c.name ++ "," ++ c.version

/-- Join strings with a separator. -/
def joinStr (sep : String) : List String → String
  | [] => ""
  | [s] => s
  | s :: rest => s ++ sep ++ joinStr sep rest

/-- Modelled from the spec, section 4.2: the Freight fingerprint, a stable hash
over the canonical serialization of the three sorted artifact lists.  The
SHA-256 hex digest of the missing implementation is modelled as the canonical
serialization itself (prefixed to keep it non-empty): like the digest it is a
deterministic function of the sorted lists, which is all the claims rely on. -/
def fingerprint (commits : List GitCommit) (images : List Image)
    (charts : List Chart) : String :=
  "sha256:" ++
    joinStr ";" ((sortLe (fun a b => strLe a.repoURL b.repoURL) commits).map serCommit) ++
    "|" ++
    joinStr ";"
      ((sortLe (fun a b => strLe (serImage a) (serImage b)) images).map serImage) ++
    "|" ++
    joinStr ";"
      ((sortLe (fun a b => strLe (serChart a) (serChart b)) charts).map serChart)

/-- Modelled from the spec, section 4.2, and the error-message expectations of
TestGetLatestFreightFromRepos: assemble one Freight from the three discoverers,
wrapping each failure with the context string the tests assert; return none
when all three collections are empty; otherwise return Freight with the
fingerprint id, firstSeen set to the current time, and qualified true. -/
def getLatestFreightFromRepos (r : Reconciler) (ns : String)
    (subs : RepoSubscriptions) : Except String (Option Freight) :=
  match r.getLatestCommitsFn ns subs.git with
  | .error e => .error ("error syncing git repo subscription: " ++ e)
  | .ok commits =>
    match r.getLatestImagesFn ns subs.images with
    | .error e => .error ("error syncing image repo subscriptions: " ++ e)
    | .ok images =>
      match r.getLatestChartsFn ns subs.charts with
      | .error e => .error ("error syncing chart repo subscriptions: " ++ e)
      | .ok charts =>
        if commits = [] ∧ images = [] ∧ charts = [] then .ok none
        else
          .ok (some
            { id := fingerprint commits images charts
              firstSeen := some r.now
              commits := commits
              images := images
              charts := charts
              qualified := true })

/-- From ui/src/utils/use-local-storage.ts: the initializer passed to useState.
getItem models window.localStorage.getItem for the key (throwing becomes an
error result, a missing item becomes none), parse models JSON.parse (throwing
becomes an error result).  The conditional item-question-mark tracks JavaScript
truthiness: the empty string is falsy, so it yields initialValue without
parsing. -/
def useLocalStorageInit {α : Type} (getItem : String → Except String (Option String))
    (parse : String → Except String α) (key : String) (initialValue : α) : α :=
  match getItem key with
  | .error _ => initialValue
  | .ok none => initialValue
  | .ok (some item) =>
    if item = "" then initialValue
    else
      match parse item with
      | .error _ => initialValue
      | .ok v => v

/-- Stage subscriptions are empty: no spec, no subscriptions block, or a
subscriptions block populating neither repos nor upstreamStages. -/
def noSubscriptions (stage : Stage) : Prop :=
  match stage.spec with
  | none => True
  | some sp =>
    match sp.subscriptions with
    | none => True
    | some subs => subs.repos = none ∧ subs.upstreamStages = []

/- Concrete instances mirroring the fixtures of TestSync and
TestGetLatestFreightFromRepos, for witnesses and counterexamples. -/

/-- A loop-guard stub reporting no non-terminal Promotions. -/
def checkerOkFalse : String → String → Except String Bool := fun _ _ => .ok false

/-- A loop-guard stub reporting a non-terminal Promotion. -/
def checkerOkTrue : String → String → Except String Bool := fun _ _ => .ok true

/-- A loop-guard stub that fails. -/
def checkerErr : String → String → Except String Bool :=
  fun _ _ => .error "something went wrong"

/-- The Stage metadata every TestSync case sets. -/
def stMeta : Stage := { name := "fake-stage", nspace := "fake-namespace" }

/-- The Freight the repo-discovery stubs of TestSync return. -/
def frT : Freight :=
  { commits := [{ repoURL := "fake-url", id := "fake-commit" }]
    images := [{ repoURL := "fake-url", tag := "fake-tag" }] }

/-- A Stage with an in-flight Promotion recorded in status. -/
def stPromo : Stage :=
  { stMeta with
    status :=
      { currentPromotion :=
          some { name := "dev.abc123.def456", freight := { id := "xyz789" } } } }

/-- A Stage with an empty subscriptions block and no other status. -/
def stNoSubs : Stage := { stMeta with spec := some { subscriptions := some {} } }

/-- A Stage with an empty subscriptions block and a stale currentPromotion. -/
def stNoSubsPromo : Stage :=
  { stPromo with spec := some { subscriptions := some {} } }

/-- A Stage subscribed to repos. -/
def stRepos : Stage :=
  { stMeta with spec := some { subscriptions := some { repos := some {} } } }

/-- A Stage subscribed to one upstream Stage. -/
def stUp1 : Stage :=
  { stMeta with
    spec := some { subscriptions := some { upstreamStages := [{ name := "fake-name" }] } } }

/-- A Stage subscribed to two upstream Stages. -/
def stUp2 : Stage :=
  { stMeta with
    spec := some
      { subscriptions := some
          { upstreamStages := [{ name := "fake-name" }, { name := "another-fake-name" }] } } }

/-- The control-flow Stage fixture: one upstream subscription, no promotion
mechanisms, a pre-populated availableFreight stack and a current Freight. -/
def stCF : Stage :=
  { stMeta with
    spec := some { subscriptions := some { upstreamStages := [{ name := "upstream" }] } }
    status :=
      { availableFreight := [{ commits := [{ repoURL := "fake-url", id := "fake-commit" }] }]
        currentFreight := some {} } }

/-- A policy enabling auto-promotion for the fixture Stage. -/
def polOn : PromotionPolicy :=
  { name := "fake-policy", nspace := "fake-namespace", stage := "fake-stage"
    enableAutoPromotion := true }

/-- A policy matching the fixture Stage with auto-promotion disabled. -/
def polOff : PromotionPolicy :=
  { name := "fake-policy", nspace := "fake-namespace", stage := "fake-stage" }

/-- A reconciler whose loop guard reports a non-terminal Promotion. -/
def rcTrue : Reconciler := { hasNonTerminalPromotionsFn := checkerOkTrue }

/-- A reconciler whose loop guard fails. -/
def rcCheckErr : Reconciler := { hasNonTerminalPromotionsFn := checkerErr }

/-- A reconciler with a clear loop guard and defaults elsewhere. -/
def rcPlain : Reconciler := { hasNonTerminalPromotionsFn := checkerOkFalse }

/-- A reconciler discovering the fixture Freight from repos, with no policy. -/
def rcRepoNew : Reconciler :=
  { hasNonTerminalPromotionsFn := checkerOkFalse
    getLatestFreightFromReposFn := fun _ _ => .ok (some frT) }

/-- Same as rcRepoNew plus a single matching policy enabling auto-promotion. -/
def rcRepoNewOn : Reconciler := { rcRepoNew with policies := [polOn] }

/-- Same as rcRepoNew plus a single matching policy with auto-promotion off. -/
def rcRepoNewOff : Reconciler := { rcRepoNew with policies := [polOff] }

/-- A reconciler whose repo discovery fails. -/
def rcRepoErr : Reconciler :=
  { hasNonTerminalPromotionsFn := checkerOkFalse
    getLatestFreightFromReposFn := fun _ _ => .error "something went wrong" }

/-- A reconciler whose upstream collection fails. -/
def rcUpErr : Reconciler :=
  { hasNonTerminalPromotionsFn := checkerOkFalse
    getAvailableFreightFromUpstreamStagesFn := fun _ _ => .error "something went wrong" }

/-- A reconciler whose upstream collection returns nothing. -/
def rcUpEmpty : Reconciler :=
  { hasNonTerminalPromotionsFn := checkerOkFalse
    getAvailableFreightFromUpstreamStagesFn := fun _ _ => .ok [] }

/-- A reconciler whose upstream collection returns two empty Freight entries,
as in the multiple-upstream-Stages test. -/
def rcUp2 : Reconciler :=
  { hasNonTerminalPromotionsFn := checkerOkFalse
    getAvailableFreightFromUpstreamStagesFn := fun _ _ => .ok [{}, {}] }

/-- The discoverer stubs of the TestGetLatestFreightFromRepos success case. -/
def rcAssemble : Reconciler :=
  { hasNonTerminalPromotionsFn := checkerOkFalse
    getLatestCommitsFn := fun _ _ => .ok [{ repoURL := "fake-url", id := "fake-commit" }]
    getLatestImagesFn := fun _ _ => .ok [{ repoURL := "fake-url", tag := "fake-tag" }]
    getLatestChartsFn := fun _ _ =>
      .ok [{ registryURL := "fake-registry", name := "fake-chart", version := "fake-version" }] }

/-- A localStorage stub holding the string 7 under every key. -/
def lsGet : String → Except String (Option String) := fun _ => .ok (some "7")

/-- A parse stub modelling JSON.parse for the single literal 7; it fails on
every other string, in particular on the empty string. -/
def lsParse : String → Except String Nat :=
  fun s => if s = "7" then .ok 7 else .error "unexpected end of JSON input"

/-- The latest-Freight-from-repos-is-not-new fixture Stage: the discovered
Freight already sits on the availableFreight stack, is current, and is in
history. -/
def stNotNew : Stage :=
  { stMeta with
    spec := some
      { subscriptions := some { repos := some {} }, promotionMechanisms := some {} }
    status :=
      { health := some { status := "Healthy" }
        availableFreight := [frT]
        currentFreight := some { frT with qualified := true }
        history := [{ frT with qualified := true }] } }

/-- The reconciler of the not-new fixture: clear loop guard, healthy health
function, repo discovery returning the already-known Freight. -/
def rcNotNew : Reconciler :=
  { hasNonTerminalPromotionsFn := checkerOkFalse
    checkHealthFn := fun _ => { status := "Healthy" }
    getLatestFreightFromReposFn := fun _ _ => .ok (some frT) }

/-- A health function always reporting Healthy. -/
def healthyFn : Freight → Health := fun _ => { status := "Healthy" }

/-- A health function always reporting Degraded. -/
def degradedFn : Freight → Health := fun _ => { status := "Degraded" }

/-- The spec of the control-flow fixture Stage. -/
def spCF : StageSpec :=
  { subscriptions := some { upstreamStages := [{ name := "upstream" }] } }

/- Helper lemmas about finishSync, shared by several claim proofs. -/

/-- Health evaluation does not change availableFreight. -/
theorem evalHealth_availableFreight (r : Reconciler) (sp : StageSpec) (st : StageStatus) :
    (evalHealth r sp st).availableFreight = st.availableFreight := by
  unfold evalHealth
  cases hpm : sp.promotionMechanisms <;> cases hcf : st.currentFreight <;> rfl

/-- Health evaluation does not change currentFreight. -/
theorem evalHealth_currentFreight (r : Reconciler) (sp : StageSpec) (st : StageStatus) :
    (evalHealth r sp st).currentFreight = st.currentFreight := by
  unfold evalHealth
  cases hpm : sp.promotionMechanisms <;> cases hcf : st.currentFreight <;> simp [hcf]

/-- Health evaluation does not change history. -/
theorem evalHealth_history (r : Reconciler) (sp : StageSpec) (st : StageStatus) :
    (evalHealth r sp st).history = st.history := by
  unfold evalHealth
  cases hpm : sp.promotionMechanisms <;> cases hcf : st.currentFreight <;> rfl

/-- For a control-flow Stage health evaluation is the identity. -/
theorem evalHealth_none (r : Reconciler) (sp : StageSpec) (st : StageStatus)
    (hpm : sp.promotionMechanisms = none) : evalHealth r sp st = st := by
  unfold evalHealth
  rw [hpm]

/-- finishSync never surfaces an error. -/
theorem finishSync_err (r : Reconciler) (stage : Stage) (sp : StageSpec)
    (st : StageStatus) (nt so : Bool) :
    (finishSync r stage sp st nt so).err = none := by
  unfold finishSync
  cases hpm : sp.promotionMechanisms <;> rfl

/-- finishSync leaves the availableFreight stack of its input status as is. -/
theorem finishSync_availableFreight (r : Reconciler) (stage : Stage) (sp : StageSpec)
    (st : StageStatus) (nt so : Bool) :
    (finishSync r stage sp st nt so).status.availableFreight = st.availableFreight := by
  unfold finishSync
  cases hpm : sp.promotionMechanisms <;>
    simp only [evalHealth_availableFreight]

/-- The Promotions a finishSync pass creates are those of the Promotion Gate on
the health-updated status. -/
theorem finishSync_created (r : Reconciler) (stage : Stage) (sp : StageSpec)
    (st : StageStatus) (nt so : Bool) :
    (finishSync r stage sp st nt so).created
      = gatePromotions r stage (evalHealth r sp st) nt so := by
  unfold finishSync
  cases hpm : sp.promotionMechanisms <;> rfl

/- Claim theorems. -/

/-- C1: whenever the non-terminal-promotion check reports that a non-terminal
Promotion exists for the Stage and returns no error, syncStage returns the
input status unchanged, creates nothing, and returns no error. -/
theorem c1_nonterminal_promotion_noop (r : Reconciler) (stage : Stage)
    (h : r.hasNonTerminalPromotionsFn stage.nspace stage.name = .ok true) :
    syncStage r stage = { status := stage.status } := by
  unfold syncStage
  rw [h]

/-- Witness for C1 at the non-terminal-promotions-found fixture. -/
theorem c1_nonterminal_promotion_noop_witness :
    syncStage rcTrue stPromo = { status := stPromo.status } :=
  c1_nonterminal_promotion_noop rcTrue stPromo rfl

/-- C6: if the non-terminal-promotion check, the repo Freight assembly, or the
upstream Freight collection fails, syncStage surfaces that error and returns
the input status unchanged, creating nothing. -/
theorem c6_error_atomicity (r : Reconciler) (stage : Stage) (e : String) :
    (r.hasNonTerminalPromotionsFn stage.nspace stage.name = .error e →
      syncStage r stage = { status := stage.status, err := some e }) ∧
    (∀ sp subs rs,
      r.hasNonTerminalPromotionsFn stage.nspace stage.name = .ok false →
      stage.spec = some sp → sp.subscriptions = some subs → subs.repos = some rs →
      r.getLatestFreightFromReposFn stage.nspace rs = .error e →
      syncStage r stage = { status := stage.status, err := some e }) ∧
    (∀ sp subs u us,
      r.hasNonTerminalPromotionsFn stage.nspace stage.name = .ok false →
      stage.spec = some sp → sp.subscriptions = some subs → subs.repos = none →
      subs.upstreamStages = u :: us →
      r.getAvailableFreightFromUpstreamStagesFn stage.nspace (u :: us) = .error e →
      syncStage r stage = { status := stage.status, err := some e }) := by
  refine ⟨fun hc => ?_, fun sp subs rs hc hspec hsubs hrepos hget => ?_,
    fun sp subs u us hc hspec hsubs hrepos hup hget => ?_⟩
  · unfold syncStage
    rw [hc]
  · simp only [syncStage, hc, hspec, hsubs, hrepos, hget]
  · simp only [syncStage, hc, hspec, hsubs, hrepos, hup, hget]

/-- Witness for C6 at the failing-loop-guard fixture. -/
theorem c6_error_atomicity_witness :
    syncStage rcCheckErr stMeta
      = { status := stMeta.status, err := some "something went wrong" } :=
  (c6_error_atomicity rcCheckErr stMeta "something went wrong").1 rfl

/-- C7 counterexample: a Stage with empty subscriptions but a stale
currentPromotion completes the pass without error, yet the returned status
differs from the input status (the stale currentPromotion is cleared before the
empty-subscriptions return). -/
theorem c7_empty_subscriptions_counterexample :
    (syncStage rcPlain stNoSubsPromo).err = none ∧
      (syncStage rcPlain stNoSubsPromo).status ≠ stNoSubsPromo.status := by
  decide

/-- C7 amended: with a clear loop guard and empty subscriptions, syncStage
returns the input status with currentPromotion cleared (hence exactly the input
status whenever the input carried no currentPromotion), creates nothing, and
returns no error. -/
theorem c7_empty_subscriptions_amended (r : Reconciler) (stage : Stage)
    (hc : r.hasNonTerminalPromotionsFn stage.nspace stage.name = .ok false)
    (hns : noSubscriptions stage) :
    syncStage r stage = { status := { stage.status with currentPromotion := none } } := by
  cases hspec : stage.spec with
  | none => simp only [syncStage, hc, hspec]
  | some sp =>
    simp only [noSubscriptions, hspec] at hns
    cases hsubs : sp.subscriptions with
    | none => simp only [syncStage, hc, hspec, hsubs]
    | some subs =>
      rw [hsubs] at hns
      simp only [syncStage, hc, hspec, hsubs, hns.1, hns.2]

/-- Witness for C7 amended at the empty-subscriptions fixture. -/
theorem c7_empty_subscriptions_amended_witness :
    syncStage rcPlain stNoSubs
      = { status := { stNoSubs.status with currentPromotion := none } } :=
  c7_empty_subscriptions_amended rcPlain stNoSubs rfl ⟨rfl, rfl⟩

/-- Reduction of syncStage on the repos path when the discovered Freight id is
not yet on the availableFreight stack. -/
theorem syncStage_repos_fresh (r : Reconciler) (stage : Stage) (sp : StageSpec)
    (subs : Subscriptions) (rs : RepoSubscriptions) (freight : Freight)
    (hc : r.hasNonTerminalPromotionsFn stage.nspace stage.name = .ok false)
    (hspec : stage.spec = some sp) (hsubs : sp.subscriptions = some subs)
    (hrepos : subs.repos = some rs)
    (hget : r.getLatestFreightFromReposFn stage.nspace rs = .ok (some freight))
    (hfresh : freight.id ∉ freightIds stage.status.availableFreight) :
    syncStage r stage
      = finishSync r stage sp
          { stage.status with
            currentPromotion := none
            availableFreight := freight :: stage.status.availableFreight }
          true true := by
  simp only [syncStage, hc, hspec, hsubs, hrepos, hget]
  rw [if_neg hfresh]

/-- Reduction of syncStage on the upstream path when the collection
succeeds. -/
theorem syncStage_upstream (r : Reconciler) (stage : Stage) (sp : StageSpec)
    (subs : Subscriptions) (u : StageSubscription) (us : List StageSubscription)
    (fs : List Freight)
    (hc : r.hasNonTerminalPromotionsFn stage.nspace stage.name = .ok false)
    (hspec : stage.spec = some sp) (hsubs : sp.subscriptions = some subs)
    (hrepos : subs.repos = none) (hup : subs.upstreamStages = u :: us)
    (hget : r.getAvailableFreightFromUpstreamStagesFn stage.nspace (u :: us) = .ok fs) :
    syncStage r stage
      = finishSync r stage sp
          { stage.status with
            currentPromotion := none
            availableFreight :=
              (fs.filter fun f =>
                  !(freightIds stage.status.availableFreight).contains f.id)
                ++ stage.status.availableFreight }
          (!(fs.filter fun f =>
              !(freightIds stage.status.availableFreight).contains f.id).isEmpty)
          ((u :: us).length == 1) := by
  simp only [syncStage, hc, hspec, hsubs, hrepos, hup, hget]

/-- The Promotion Gate creates nothing when zero policies match, when two or
more match, or when the single matching policy does not enable
auto-promotion. -/
theorem gatePromotions_suppressed (r : Reconciler) (stage : Stage)
    (st : StageStatus) (nt so : Bool)
    (h : matchingPolicies r stage = [] ∨ 2 ≤ (matchingPolicies r stage).length ∨
      ∃ p, matchingPolicies r stage = [p] ∧ p.enableAutoPromotion = false) :
    gatePromotions r stage st nt so = [] := by
  unfold gatePromotions
  cases hM : matchingPolicies r stage with
  | nil => simp
  | cons a t =>
    cases t with
    | nil =>
      rcases h with h0 | h2 | ⟨p, hp, hpe⟩
      · rw [hM] at h0
        exact absurd h0 (by simp)
      · rw [hM] at h2
        simp at h2
      · rw [hM] at hp
        have hae : a.enableAutoPromotion = false := by
          rw [(List.cons.inj hp).1]
          exact hpe
        simp [hae]
    | cons b t2 => simp

/-- The Promotion Gate fires when exactly one matching policy enables
auto-promotion, a new Freight tops the stack, the subscription shape permits
it, and the top id differs from the current Freight id. -/
theorem gatePromotions_fires (r : Reconciler) (stage : Stage) (st : StageStatus)
    (p : PromotionPolicy) (top : Freight) (rest : List Freight)
    (hpol : matchingPolicies r stage = [p]) (hen : p.enableAutoPromotion = true)
    (htop : st.availableFreight = top :: rest)
    (hdiff : st.currentFreight.map Freight.id ≠ some top.id) :
    gatePromotions r stage st true true = [newPromotion r stage top.id] := by
  unfold gatePromotions
  rw [hpol, htop]
  simp [hen, hdiff]

/-- C2: with a clear loop guard, a repo subscription discovering a Freight
whose id is not yet on the availableFreight stack, exactly one matching
PromotionPolicy that enables auto-promotion, and a discovered Freight id
differing from the current Freight id, syncStage creates exactly one Promotion,
for the discovered Freight id. -/
theorem c2_auto_promotion_creates_one (r : Reconciler) (stage : Stage)
    (sp : StageSpec) (subs : Subscriptions) (rs : RepoSubscriptions)
    (freight : Freight) (p : PromotionPolicy)
    (hc : r.hasNonTerminalPromotionsFn stage.nspace stage.name = .ok false)
    (hspec : stage.spec = some sp) (hsubs : sp.subscriptions = some subs)
    (hrepos : subs.repos = some rs)
    (hget : r.getLatestFreightFromReposFn stage.nspace rs = .ok (some freight))
    (hfresh : freight.id ∉ freightIds stage.status.availableFreight)
    (hpol : matchingPolicies r stage = [p]) (hen : p.enableAutoPromotion = true)
    (hdiff : stage.status.currentFreight.map Freight.id ≠ some freight.id) :
    (syncStage r stage).created = [newPromotion r stage freight.id] := by
  rw [syncStage_repos_fresh r stage sp subs rs freight hc hspec hsubs hrepos hget hfresh,
    finishSync_created]
  refine gatePromotions_fires r stage _ p freight stage.status.availableFreight hpol hen
    ?_ ?_
  · rw [evalHealth_availableFreight]
  · rw [evalHealth_currentFreight]
    exact hdiff

/-- Witness for C2 at the auto-promotion-enabled fixture. -/
theorem c2_auto_promotion_creates_one_witness :
    (syncStage rcRepoNewOn stRepos).created = [newPromotion rcRepoNewOn stRepos frT.id] :=
  c2_auto_promotion_creates_one rcRepoNewOn stRepos
    { subscriptions := some { repos := some {} } } { repos := some {} } {} frT polOn
    rfl rfl rfl rfl rfl (by decide) (by decide) rfl (by decide)

/-- C3: with the same discovery setup but a failing Promotion Gate condition
(zero matching policies, two or more matching policies, or the single matching
policy not enabling auto-promotion), syncStage creates no Promotion, returns no
error, and still pushes the newly discovered Freight onto availableFreight. -/
theorem c3_gate_suppression_no_promotion (r : Reconciler) (stage : Stage)
    (sp : StageSpec) (subs : Subscriptions) (rs : RepoSubscriptions)
    (freight : Freight)
    (hc : r.hasNonTerminalPromotionsFn stage.nspace stage.name = .ok false)
    (hspec : stage.spec = some sp) (hsubs : sp.subscriptions = some subs)
    (hrepos : subs.repos = some rs)
    (hget : r.getLatestFreightFromReposFn stage.nspace rs = .ok (some freight))
    (hfresh : freight.id ∉ freightIds stage.status.availableFreight)
    (hgate : matchingPolicies r stage = [] ∨ 2 ≤ (matchingPolicies r stage).length ∨
      ∃ p, matchingPolicies r stage = [p] ∧ p.enableAutoPromotion = false) :
    (syncStage r stage).created = [] ∧ (syncStage r stage).err = none ∧
      (syncStage r stage).status.availableFreight
        = freight :: stage.status.availableFreight := by
  rw [syncStage_repos_fresh r stage sp subs rs freight hc hspec hsubs hrepos hget hfresh]
  refine ⟨?_, finishSync_err r stage sp _ true true, ?_⟩
  · rw [finishSync_created]
    exact gatePromotions_suppressed r stage _ true true hgate
  · rw [finishSync_availableFreight]

/-- Witness for C3 at the no-promotion-policy-found fixture. -/
theorem c3_gate_suppression_no_promotion_witness :
    (syncStage rcRepoNew stRepos).created = [] ∧
      (syncStage rcRepoNew stRepos).err = none ∧
      (syncStage rcRepoNew stRepos).status.availableFreight
        = frT :: stRepos.status.availableFreight :=
  c3_gate_suppression_no_promotion rcRepoNew stRepos
    { subscriptions := some { repos := some {} } } { repos := some {} } {} frT
    rfl rfl rfl rfl rfl (by decide) (Or.inl rfl)

/-- For a control-flow Stage, finishSync clears currentFreight, qualifies and
appends the pass-input availableFreight to history, and keeps the Promotion
Gate's output. -/
theorem finishSync_controlFlow (r : Reconciler) (stage : Stage) (sp : StageSpec)
    (st : StageStatus) (nt so : Bool) (hpm : sp.promotionMechanisms = none) :
    finishSync r stage sp st nt so
      = { status :=
            { st with
              currentFreight := none
              history := stage.status.availableFreight.map qualify ++ st.history }
          created := gatePromotions r stage st nt so
          err := none } := by
  unfold finishSync
  rw [evalHealth_none r sp st hpm, hpm]

/-- C5 counterexample: the auto-promotion-enabled fixture Stage has nil
promotionMechanisms (a control-flow Stage by the claim's definition), yet its
pass creates one Promotion. -/
theorem c5_control_flow_counterexample :
    stRepos.spec.map StageSpec.promotionMechanisms = some none ∧
      (syncStage rcRepoNewOn stRepos).created.length = 1 := by
  decide

/-- For a control-flow Stage, the facts of any finishSync tail whose input
status carries the pass-input history: no error, currentFreight cleared, the
pass-input availableFreight qualified and appended to history, and no
Promotion created whenever no PromotionPolicy matches. -/
theorem finishSync_controlFlow_facts (r : Reconciler) (stage : Stage)
    (sp : StageSpec) (st : StageStatus) (nt so : Bool)
    (hpm : sp.promotionMechanisms = none)
    (hhist : st.history = stage.status.history) :
    (finishSync r stage sp st nt so).err = none ∧
      (finishSync r stage sp st nt so).status.currentFreight = none ∧
      (finishSync r stage sp st nt so).status.history
        = stage.status.availableFreight.map qualify ++ stage.status.history ∧
      (matchingPolicies r stage = [] → (finishSync r stage sp st nt so).created = []) := by
  rw [finishSync_controlFlow r stage sp st nt so hpm]
  exact ⟨rfl, rfl, by rw [hhist],
    fun hpol => gatePromotions_suppressed r stage st nt so (Or.inl hpol)⟩

/-- C5 amended: for a Stage with nil promotionMechanisms, every completed pass
(clear loop guard and a subscription dispatch that reaches the merge step:
repo discovery returning a Freight, or a successful upstream collection)
returns no error, returns currentFreight null, and appends each pass-input
available Freight to history in order with qualified true; the auto-promotion
gate still runs, so additionally no Promotion is created whenever no
PromotionPolicy matches the Stage.  (Without that last condition a Promotion
can still be created, as the counterexample shows.) -/
theorem c5_control_flow_amended (r : Reconciler) (stage : Stage) (sp : StageSpec)
    (subs : Subscriptions)
    (hc : r.hasNonTerminalPromotionsFn stage.nspace stage.name = .ok false)
    (hspec : stage.spec = some sp) (hsubs : sp.subscriptions = some subs)
    (hpm : sp.promotionMechanisms = none)
    (hdisp :
      (∃ rs freight, subs.repos = some rs ∧
        r.getLatestFreightFromReposFn stage.nspace rs = .ok (some freight)) ∨
      (∃ u us fs, subs.repos = none ∧ subs.upstreamStages = u :: us ∧
        r.getAvailableFreightFromUpstreamStagesFn stage.nspace (u :: us) = .ok fs)) :
    (syncStage r stage).err = none ∧
      (syncStage r stage).status.currentFreight = none ∧
      (syncStage r stage).status.history
        = stage.status.availableFreight.map qualify ++ stage.status.history ∧
      (matchingPolicies r stage = [] → (syncStage r stage).created = []) := by
  rcases hdisp with ⟨rs, freight, hrepos, hget⟩ | ⟨u, us, fs, hrepos, hup, hget⟩
  · simp only [syncStage, hc, hspec, hsubs, hrepos, hget]
    by_cases hmem : freight.id ∈ freightIds stage.status.availableFreight
    · rw [if_pos hmem]
      exact finishSync_controlFlow_facts r stage sp _ false true hpm rfl
    · rw [if_neg hmem]
      exact finishSync_controlFlow_facts r stage sp _ true true hpm rfl
  · rw [syncStage_upstream r stage sp subs u us fs hc hspec hsubs hrepos hup hget]
    exact finishSync_controlFlow_facts r stage sp _ _ _ hpm rfl

/-- Witness for C5 amended at the control-flow fixture. -/
theorem c5_control_flow_amended_witness :
    (syncStage rcUpEmpty stCF).err = none ∧
      (syncStage rcUpEmpty stCF).status.currentFreight = none ∧
      (syncStage rcUpEmpty stCF).status.history
        = stCF.status.availableFreight.map qualify ++ stCF.status.history ∧
      (matchingPolicies rcUpEmpty stCF = [] → (syncStage rcUpEmpty stCF).created = []) :=
  c5_control_flow_amended rcUpEmpty stCF spCF
    { upstreamStages := [{ name := "upstream" }] }
    rfl rfl rfl rfl
    (Or.inr ⟨{ name := "upstream" }, [], [], rfl, rfl, rfl⟩)

/-- finishSync does not depend on the health function when the Stage has nil
promotionMechanisms. -/
theorem finishSync_checkHealth_irrel (r : Reconciler) (h1 h2 : Freight → Health)
    (stage : Stage) (sp : StageSpec) (st : StageStatus) (nt so : Bool)
    (hpm : sp.promotionMechanisms = none) :
    finishSync { r with checkHealthFn := h1 } stage sp st nt so
      = finishSync { r with checkHealthFn := h2 } stage sp st nt so := by
  rw [finishSync_controlFlow _ _ _ _ _ _ hpm, finishSync_controlFlow _ _ _ _ _ _ hpm]
  exact rfl

/-- C9: for a Stage with nil promotionMechanisms, the result of syncStage does
not depend on the injected health function: the health evaluator is never
consulted, even when status.currentFreight is non-null. -/
theorem c9_control_flow_health_independent (r : Reconciler) (stage : Stage)
    (sp : StageSpec) (h1 h2 : Freight → Health)
    (hspec : stage.spec = some sp) (hpm : sp.promotionMechanisms = none) :
    syncStage { r with checkHealthFn := h1 } stage
      = syncStage { r with checkHealthFn := h2 } stage := by
  cases hcheck : r.hasNonTerminalPromotionsFn stage.nspace stage.name with
  | error e => simp only [syncStage, hcheck]
  | ok b =>
    cases b with
    | true => simp only [syncStage, hcheck]
    | false =>
      cases hsubs : sp.subscriptions with
      | none => simp only [syncStage, hcheck, hspec, hsubs]
      | some subs =>
        cases hrepos : subs.repos with
        | some rs =>
          cases hget : r.getLatestFreightFromReposFn stage.nspace rs with
          | error e => simp only [syncStage, hcheck, hspec, hsubs, hrepos, hget]
          | ok o =>
            cases o with
            | none => simp only [syncStage, hcheck, hspec, hsubs, hrepos, hget]
            | some freight =>
              simp only [syncStage, hcheck, hspec, hsubs, hrepos, hget]
              by_cases hmem : freight.id ∈ freightIds stage.status.availableFreight
              · rw [if_pos hmem, if_pos hmem]
                exact finishSync_checkHealth_irrel r h1 h2 stage sp _ false true hpm
              · rw [if_neg hmem, if_neg hmem]
                exact finishSync_checkHealth_irrel r h1 h2 stage sp _ true true hpm
        | none =>
          cases hup : subs.upstreamStages with
          | nil => simp only [syncStage, hcheck, hspec, hsubs, hrepos, hup]
          | cons u us =>
            cases hcol :
                r.getAvailableFreightFromUpstreamStagesFn stage.nspace (u :: us) with
            | error e =>
              simp only [syncStage, hcheck, hspec, hsubs, hrepos, hup, hcol]
            | ok fs =>
              simp only [syncStage, hcheck, hspec, hsubs, hrepos, hup, hcol]
              exact finishSync_checkHealth_irrel r h1 h2 stage sp _ _ _ hpm

/-- Witness for C9 at the control-flow fixture with two distinct health
functions. -/
theorem c9_control_flow_health_independent_witness :
    syncStage { rcUpEmpty with checkHealthFn := healthyFn } stCF
      = syncStage { rcUpEmpty with checkHealthFn := degradedFn } stCF :=
  c9_control_flow_health_independent rcUpEmpty stCF spCF healthyFn degradedFn rfl rfl

/-- C4 counterexample: at the multiple-upstream-Stages fixture the pass
completes without error, yet the returned availableFreight stack holds two
entries with equal id (both collected Freight entries have the empty id and
both are pushed: deduplication only checks the stack as of the start of the
pass). -/
theorem c4_duplicate_ids_counterexample :
    (syncStage rcUp2 stUp2).err = none ∧
      ¬ (freightIds (syncStage rcUp2 stUp2).status.availableFreight).Nodup := by
  decide

/-- C4 amended: syncStage never pushes a candidate whose id already occurs in
the pass-input availableFreight, so whenever each successful upstream
collection is itself free of duplicate ids (a single repo candidate trivially
is), a duplicate-free availableFreight stack stays duplicate-free across the
pass. -/
theorem c4_no_duplicate_ids_amended (r : Reconciler) (stage : Stage)
    (hbatch : ∀ ns us fs,
      r.getAvailableFreightFromUpstreamStagesFn ns us = .ok fs → (freightIds fs).Nodup)
    (hin : (freightIds stage.status.availableFreight).Nodup) :
    (freightIds (syncStage r stage).status.availableFreight).Nodup := by
  cases hcheck : r.hasNonTerminalPromotionsFn stage.nspace stage.name with
  | error e => simp only [syncStage, hcheck]; exact hin
  | ok b =>
    cases b with
    | true => simp only [syncStage, hcheck]; exact hin
    | false =>
      cases hspec : stage.spec with
      | none => simp only [syncStage, hcheck, hspec]; exact hin
      | some sp =>
        cases hsubs : sp.subscriptions with
        | none => simp only [syncStage, hcheck, hspec, hsubs]; exact hin
        | some subs =>
          cases hrepos : subs.repos with
          | some rs =>
            cases hget : r.getLatestFreightFromReposFn stage.nspace rs with
            | error e =>
              simp only [syncStage, hcheck, hspec, hsubs, hrepos, hget]; exact hin
            | ok o =>
              cases o with
              | none =>
                simp only [syncStage, hcheck, hspec, hsubs, hrepos, hget]; exact hin
              | some freight =>
                simp only [syncStage, hcheck, hspec, hsubs, hrepos, hget]
                by_cases hmem : freight.id ∈ freightIds stage.status.availableFreight
                · rw [if_pos hmem, finishSync_availableFreight]
                  exact hin
                · rw [if_neg hmem, finishSync_availableFreight]
                  exact List.nodup_cons.mpr ⟨hmem, hin⟩
          | none =>
            cases hup : subs.upstreamStages with
            | nil => simp only [syncStage, hcheck, hspec, hsubs, hrepos, hup]; exact hin
            | cons u us =>
              cases hcol :
                  r.getAvailableFreightFromUpstreamStagesFn stage.nspace (u :: us) with
              | error e =>
                simp only [syncStage, hcheck, hspec, hsubs, hrepos, hup, hcol]; exact hin
              | ok fs =>
                rw [syncStage_upstream r stage sp subs u us fs hcheck hspec hsubs hrepos
                  hup hcol, finishSync_availableFreight]
                have hfs : (freightIds fs).Nodup := hbatch _ _ _ hcol
                have hfil :
                    (freightIds (fs.filter fun f =>
                      !(freightIds stage.status.availableFreight).contains f.id)).Nodup := by
                  have hsub :
                      List.Sublist
                        ((fs.filter fun f =>
                          !(freightIds stage.status.availableFreight).contains f.id).map
                          Freight.id)
                        (fs.map Freight.id) :=
                    (List.filter_sublist fs).map Freight.id
                  exact List.Nodup.sublist hsub hfs
                have hdisj :
                    (freightIds (fs.filter fun f =>
                        !(freightIds stage.status.availableFreight).contains f.id)).Disjoint
                      (freightIds stage.status.availableFreight) := by
                  intro a ha hb
                  obtain ⟨f, hf, rfl⟩ := List.mem_map.mp ha
                  have hp := (List.mem_filter.mp hf).2
                  simp only [Bool.not_eq_true'] at hp
                  have hmemf : f.id ∉ freightIds stage.status.availableFreight := by
                    simpa using hp
                  exact hmemf hb
                show (freightIds ((fs.filter fun f =>
                    !(freightIds stage.status.availableFreight).contains f.id)
                  ++ stage.status.availableFreight)).Nodup
                rw [show (freightIds ((fs.filter fun f =>
                    !(freightIds stage.status.availableFreight).contains f.id)
                  ++ stage.status.availableFreight))
                    = freightIds (fs.filter fun f =>
                        !(freightIds stage.status.availableFreight).contains f.id)
                      ++ freightIds stage.status.availableFreight from
                  List.map_append _ _ _]
                exact List.Nodup.append hfil hin hdisj

/-- Witness for C4 amended at the no-promotion-policy fixture: the pass pushes
one fresh Freight and the id stack stays duplicate-free. -/
theorem c4_no_duplicate_ids_amended_witness :
    (freightIds (syncStage rcRepoNew stRepos).status.availableFreight).Nodup :=
  c4_no_duplicate_ids_amended rcRepoNew stRepos
    (fun ns us fs h => by
      injection h with h2
      subst h2
      exact List.nodup_nil)
    (by decide)

/-- The Freight fingerprint is never the empty string. -/
theorem fingerprint_ne_empty (c : List GitCommit) (i : List Image)
    (ch : List Chart) : fingerprint c i ch ≠ "" := by
  intro h
  have hlen := congrArg String.length h
  simp only [fingerprint, String.length_append] at hlen
  have h7 : ("sha256:" : String).length = 7 := rfl
  have h0 : ("" : String).length = 0 := rfl
  rw [h7, h0] at hlen
  omega

/-- C8: when the three discoverers succeed and not all collections are empty,
getLatestFreightFromRepos returns a Freight whose commits, images and charts
are exactly the discovered lists, whose id is the (non-empty) fingerprint,
whose firstSeen is set to the current time, and whose qualified flag is
true. -/
theorem c8_freight_assembly (r : Reconciler) (ns : String)
    (subs : RepoSubscriptions) (commits : List GitCommit) (images : List Image)
    (charts : List Chart)
    (hc : r.getLatestCommitsFn ns subs.git = .ok commits)
    (hi : r.getLatestImagesFn ns subs.images = .ok images)
    (hch : r.getLatestChartsFn ns subs.charts = .ok charts)
    (hne : ¬(commits = [] ∧ images = [] ∧ charts = [])) :
    getLatestFreightFromRepos r ns subs
      = .ok (some
          { id := fingerprint commits images charts
            firstSeen := some r.now
            commits := commits
            images := images
            charts := charts
            qualified := true })
      ∧ fingerprint commits images charts ≠ "" := by
  constructor
  · simp only [getLatestFreightFromRepos, hc, hi, hch]
    rw [if_neg hne]
  · exact fingerprint_ne_empty commits images charts

/-- Witness for C8 at the TestGetLatestFreightFromRepos success fixture. -/
theorem c8_freight_assembly_witness :
    getLatestFreightFromRepos rcAssemble "fake-namespace" {}
      = .ok (some
          { id := fingerprint [{ repoURL := "fake-url", id := "fake-commit" }]
              [{ repoURL := "fake-url", tag := "fake-tag" }]
              [{ registryURL := "fake-registry", name := "fake-chart"
                 version := "fake-version" }]
            firstSeen := some rcAssemble.now
            commits := [{ repoURL := "fake-url", id := "fake-commit" }]
            images := [{ repoURL := "fake-url", tag := "fake-tag" }]
            charts := [{ registryURL := "fake-registry", name := "fake-chart"
                         version := "fake-version" }]
            qualified := true })
      ∧ fingerprint [{ repoURL := "fake-url", id := "fake-commit" }]
          [{ repoURL := "fake-url", tag := "fake-tag" }]
          [{ registryURL := "fake-registry", name := "fake-chart"
             version := "fake-version" }] ≠ "" :=
  c8_freight_assembly rcAssemble "fake-namespace" {}
    [{ repoURL := "fake-url", id := "fake-commit" }]
    [{ repoURL := "fake-url", tag := "fake-tag" }]
    [{ registryURL := "fake-registry", name := "fake-chart", version := "fake-version" }]
    rfl rfl rfl (by decide)

/-- C10: the useState initializer of useLocalStorage returns initialValue when
reading localStorage throws, when no item is stored, or when the stored item
fails to parse; it returns the parsed value when a stored item parses (given
that the parse function, like JSON.parse, rejects the empty string). -/
theorem c10_use_local_storage_init {α : Type}
    (getItem : String → Except String (Option String))
    (parse : String → Except String α) (key : String) (initV : α)
    (hjson : ∀ v : α, parse "" ≠ .ok v) :
    (∀ e, getItem key = .error e →
      useLocalStorageInit getItem parse key initV = initV) ∧
    (getItem key = .ok none → useLocalStorageInit getItem parse key initV = initV) ∧
    (∀ s e, getItem key = .ok (some s) → parse s = .error e →
      useLocalStorageInit getItem parse key initV = initV) ∧
    (∀ s v, getItem key = .ok (some s) → parse s = .ok v →
      useLocalStorageInit getItem parse key initV = v) := by
  refine ⟨fun e hg => ?_, fun hg => ?_, fun s e hg hp => ?_, fun s v hg hp => ?_⟩
  · simp only [useLocalStorageInit, hg]
  · simp only [useLocalStorageInit, hg]
  · simp only [useLocalStorageInit, hg]
    by_cases hs : s = ""
    · rw [if_pos hs]
    · rw [if_neg hs, hp]
  · simp only [useLocalStorageInit, hg]
    have hs : s ≠ "" := by
      intro hs0
      exact hjson v (hs0 ▸ hp)
    rw [if_neg hs, hp]

/-- Witness for C10: a stored item that parses initializes the state to the
parsed value. -/
theorem c10_use_local_storage_init_witness :
    useLocalStorageInit lsGet lsParse "pref" 0 = 7 := by
  have hjson : ∀ v : Nat, lsParse "" ≠ .ok v := by
    intro v h
    simp [lsParse] at h
  exact (c10_use_local_storage_init lsGet lsParse "pref" 0 hjson).2.2.2 "7" 7 rfl rfl

/- Model validation: the spec-modelled syncStage reproduces the remaining
TestSync fixtures verbatim. -/

/-- The not-new fixture: discovery returning Freight already on the stack
leaves the status unchanged. -/
theorem modelMatchesTest_reposNotNew :
    syncStage rcNotNew stNotNew = { status := stNotNew.status } := by
  decide

/-- The multiple-upstream fixture: both collected Freight entries are pushed
and everything else is unchanged. -/
theorem modelMatchesTest_multipleUpstreams :
    syncStage rcUp2 stUp2
      = { status := { stUp2.status with availableFreight := [{}, {}] } } := by
  decide

/-- The cleared-currentPromotion fixture: with a clear loop guard the stale
currentPromotion is dropped. -/
theorem modelMatchesTest_promotionCleared :
    (syncStage rcPlain stNoSubsPromo).status.currentPromotion = none := by
  decide

/-- The control-flow fixture: currentFreight cleared, pre-existing available
Freight qualified into history. -/
theorem modelMatchesTest_controlFlow :
    syncStage rcUpEmpty stCF
      = { status :=
            { stCF.status with
              currentFreight := none
              history := [{ commits := [{ repoURL := "fake-url", id := "fake-commit" }]
                            qualified := true }] } } := by
  decide

end Kargo
